import Mathlib

/-!
# python-ospray: the marshaling bridge of `src/PythonBindings.cpp`

A shallow embedding of the binding layer: the scripting values the wrappers receive,
the scalar and sequence converters, the PPM writer and the entry-point wrappers, each
wrapper producing the list of native calls it makes and the way it ends.
-/

namespace PyOspray

/-! ## Scripting values -/

/-- A C `double` held by a scripting float: either an IEEE-754 bit pattern or the double
obtained from an integer. Its arithmetic is never inspected. -/
inductive PyDouble where
  | bits (b : Nat)
  | ofInteger (v : Int)
  deriving DecidableEq, Repr

/-- The scripting values a wrapper can be handed (Python 2 object kinds). -/
inductive PyObject where
  | none
  | bool (b : Bool)
  | int (v : Int)
  | long (v : Int)
  | float (d : PyDouble)
  | str (s : String)
  | unicode (s : String)
  | list (items : List PyObject)
  | tuple (items : List PyObject)
  deriving Repr

def LONG_MAX : Int := 9223372036854775807
def LONG_MIN : Int := -9223372036854775808
def INT_MAX : Int := 2147483647
def INT_MIN : Int := -2147483648

/-- `PyFloat_Check`. -/
def PyFloat_Check : PyObject → Bool
  | .float _ => true
  | _ => false

/-- `PyLong_Check`. -/
def PyLong_Check : PyObject → Bool
  | .long _ => true
  | _ => false

/-- `PyInt_Check`: plain integers and booleans (a subtype of the plain integer). -/
def PyInt_Check : PyObject → Bool
  | .int _ => true
  | .bool _ => true
  | _ => false

/-- `PyString_Check`: byte strings only, a unicode object is not one. -/
def PyString_Check : PyObject → Bool
  | .str _ => true
  | _ => false

/-- `PyFloat_AsDouble`: the double of a float object, or the double an integer converts
to. -/
def PyFloat_AsDouble : PyObject → PyDouble
  | .float d => d
  | .int v => .ofInteger v
  | .long v => .ofInteger v
  | .bool b => .ofInteger (if b then 1 else 0)
  | _ => .ofInteger (-1)

/-- `PyInt_AsLong`: the C long of a plain integer; a long integer goes through
`PyLong_AsLong`, which yields -1 (and a pending overflow error) out of range. -/
def PyInt_AsLong : PyObject → Int
  | .int v => v
  | .bool b => if b then 1 else 0
  | .long v => if LONG_MIN ≤ v ∧ v ≤ LONG_MAX then v else -1
  | _ => -1

/-- `PyLong_AsLong`. -/
def PyLong_AsLong : PyObject → Int
  | .long v => if LONG_MIN ≤ v ∧ v ≤ LONG_MAX then v else -1
  | .int v => v
  | .bool b => if b then 1 else 0
  | _ => -1

/-- `PyString_AsString` on an object that passed `PyString_Check`: the pointer to the
bytes of the string object, all of them, with a NUL after the last. -/
def PyString_AsString : PyObject → String
  | .str s => s
  | _ => ""

/-- The `std::string` built from a `char *`: the bytes before the first NUL. -/
def stdString (cstr : String) : String :=
  String.mk (cstr.toList.takeWhile fun c => c.toNat ≠ 0)

/-- `PyObject_GetIter` followed by `PyIter_Next` until it yields NULL: the items an
iterable hands out in order, `none` when the object is not iterable. A string iterates
over its one-character strings. -/
def PyObject_GetIter : PyObject → Option (List PyObject)
  | .list items => some items
  | .tuple items => some items
  | .str s => some (s.toList.map fun c => .str (String.singleton c))
  | .unicode s => some (s.toList.map fun c => .unicode (String.singleton c))
  | _ => Option.none

/-! ## Native scalars and errors -/

/-- A C `float`, named by the cast that produced it. -/
inductive CFloat where
  | ofDouble (d : PyDouble)
  | ofLong (v : Int)
  deriving DecidableEq, Repr

/-- A C `int`, named by the cast that produced it: `(int)d` of a double or `(int)v` of a
C long. -/
inductive CInt where
  | ofDouble (d : PyDouble)
  | ofLong (v : Int)
  deriving DecidableEq, Repr

/-- The `std::runtime_error`s the file throws, one per message. -/
inductive RuntimeError where
  | unknownFrameBufferFormat (format : String)
  | notAString
  | notAFloat
  | notAnInt
  | notALong
  | notAList
  | unknownDataFormat (format : String)
  deriving DecidableEq, Repr

/-- The two error conditions of the specification. -/
inductive ErrorKind where
  | TypeMismatch
  | UnsupportedFormat
  deriving DecidableEq, Repr

/-- Which condition a thrown error stands for. -/
def RuntimeError.kind : RuntimeError → ErrorKind
  | .unknownFrameBufferFormat _ => .UnsupportedFormat
  | .unknownDataFormat _ => .UnsupportedFormat
  | .notAString => .TypeMismatch
  | .notAFloat => .TypeMismatch
  | .notAnInt => .TypeMismatch
  | .notALong => .TypeMismatch
  | .notAList => .TypeMismatch

/-! ## Helper functions -/

/-- The pixel formats of the native header that the file names. -/
inductive OSPFrameBufferFormat where
  | OSP_FB_SRGBA
  deriving DecidableEq, Repr

/-- The helper `parseFrameBufferFormat`: "srgba" or a thrown error. -/
def parseFrameBufferFormat (format : String) : Except RuntimeError OSPFrameBufferFormat :=
  if format = "srgba" then .ok .OSP_FB_SRGBA
  else .error (.unknownFrameBufferFormat format)

/-- The helper `getString`: the `char *` of a string object returned as a `std::string`,
which ends at the first NUL byte of the object, or a thrown error. -/
def getString (iter : PyObject) : Except RuntimeError String :=
  if PyString_Check iter then .ok (stdString (PyString_AsString iter))
  else .error .notAString

/-- The helper `getFloat`: a float, long or plain integer object cast to `float`, or a
thrown error. -/
def getFloat (iter : PyObject) : Except RuntimeError CFloat :=
  if PyFloat_Check iter then .ok (.ofDouble (PyFloat_AsDouble iter))
  else if PyLong_Check iter then .ok (.ofLong (PyLong_AsLong iter))
  else if PyInt_Check iter then .ok (.ofLong (PyInt_AsLong iter))
  else .error .notAFloat

/-- The helper `getInt`: a float, long or plain integer object cast to `int`, or a thrown
error. -/
def getInt (iter : PyObject) : Except RuntimeError CInt :=
  if PyFloat_Check iter then .ok (.ofDouble (PyFloat_AsDouble iter))
  else if PyLong_Check iter then .ok (.ofLong (PyLong_AsLong iter))
  else if PyInt_Check iter then .ok (.ofLong (PyInt_AsLong iter))
  else .error .notAnInt

/-- The helper `getLong`: a long or plain integer object as a C long, or a thrown error;
there is no branch for a float object. -/
def getLong (iter : PyObject) : Except RuntimeError Int :=
  if PyLong_Check iter then .ok (PyLong_AsLong iter)
  else if PyInt_Check iter then .ok (PyInt_AsLong iter)
  else .error .notALong

/-- The loop `while (item = PyIter_Next(iter)) values.push_back(conv(item))` shared by
the four sequence converters: `values` is the vector built so far. -/
def pushBackLoop {α : Type} (conv : PyObject → Except RuntimeError α) :
    List PyObject → List α → Except RuntimeError (List α)
  | [], values => .ok values
  | item :: rest, values =>
    match conv item with
    | .ok v => pushBackLoop conv rest (values ++ [v])
    | .error e => .error e

/-- The helper `getFloats`: throws when the object gives no iterator, else converts the
items one after the other with `getFloat`. -/
def getFloats (valuesList : PyObject) : Except RuntimeError (List CFloat) :=
  match PyObject_GetIter valuesList with
  | Option.none => .error .notAList
  | some items => pushBackLoop getFloat items []

/-- The helper `getStrings`, as `getFloats` with `getString`. -/
def getStrings (valuesList : PyObject) : Except RuntimeError (List String) :=
  match PyObject_GetIter valuesList with
  | Option.none => .error .notAList
  | some items => pushBackLoop getString items []

/-- The helper `getInts`, as `getFloats` with `getInt`. -/
def getInts (valuesList : PyObject) : Except RuntimeError (List CInt) :=
  match PyObject_GetIter valuesList with
  | Option.none => .error .notAList
  | some items => pushBackLoop getInt items []

/-- The helper `getLongs`, as `getFloats` with `getLong`. -/
def getLongs (valuesList : PyObject) : Except RuntimeError (List Int) :=
  match PyObject_GetIter valuesList with
  | Option.none => .error .notAList
  | some items => pushBackLoop getLong items []

/-! ## The PPM writer -/

/-- The native `osp::vec2i`: two C ints. -/
structure vec2i where
  x : Int
  y : Int
  deriving DecidableEq, Repr

/-- What `fopen(fileName, "wb")` and the writes after it meet: the file cannot be opened;
it opens and takes the first `capacity` bytes written to it, the writes failing from
there on (a full device; `takes 0` rejects every write); or it takes every byte
written. -/
inductive OutputFile where
  | cannotOpen
  | takes (capacity : Nat)
  | writable
  deriving DecidableEq, Repr

/-- What is left in the file of the bytes written to it, in order, by a run that ignores
the results of `fprintf` and `fwrite`. -/
def OutputFile.keep : OutputFile → List Nat → List Nat
  | .cannotOpen, _ => []
  | .takes capacity, bytes => bytes.take capacity
  | .writable, bytes => bytes

/-- How a run of `writePPM` ends: it returned at the failed `fopen`, it ran to `fclose`
leaving `bytes` in the file, or it evaluated an `int` expression that overflows or
asked `alloca` for a negative size or for more than the stack has left, after which C
defines nothing (in practice the process dies). -/
inductive PPMResult where
  | fopenFailed
  | written (bytes : List Nat)
  | undefined
  deriving DecidableEq, Repr

/-- The bytes of an ASCII string. -/
def asciiBytes (s : String) : List Nat := s.toList.map Char.toNat

/-- Whether the value of an expression of type `int` fits the 32-bit range; outside it
the expression overflows and its evaluation is undefined. -/
def inIntRange (v : Int) : Bool := decide (INT_MIN ≤ v ∧ v ≤ INT_MAX)

/-- One turn of the inner loop: `out[3*x+k] = in[4*x+k]` for `k = 0, 1, 2`, where `in`
points at byte `4*row` of the pixel buffer. `pixelBytes i` is the byte at offset `i`
from `pixel`. Yields the three bytes stored into `out`, nothing when an index
expression overflows. -/
def ppmPixel (pixelBytes : Nat → Nat) (row : Int) (x : Nat) : Option (List Nat) :=
  if inIntRange (3 * (x : Int)) && inIntRange (3 * (x : Int) + 2) &&
      inIntRange (4 * (x : Int)) && inIntRange (4 * (x : Int) + 2) then
    some [pixelBytes (4 * row + 4 * (x : Int) + 0).toNat,
      pixelBytes (4 * row + 4 * (x : Int) + 1).toNat,
      pixelBytes (4 * row + 4 * (x : Int) + 2).toNat]
  else Option.none

/-- One turn of the outer loop: `in` is set to pixel `(size.y-1-y)*size.x`, the inner
loop fills `out`, and the `3*size.x` bytes of `out` are handed to `fwrite`. -/
def ppmRow (size : vec2i) (pixelBytes : Nat → Nat) (y : Nat) : Option (List Nat) :=
  if inIntRange (size.y - 1) && inIntRange (size.y - 1 - (y : Int)) &&
      inIntRange ((size.y - 1 - (y : Int)) * size.x) then
    ((List.range size.x.toNat).mapM
      (ppmPixel pixelBytes ((size.y - 1 - (y : Int)) * size.x))).map List.flatten
  else Option.none

/-- The helper `writePPM(fileName, size, pixel)`: return at a failed `fopen`; else print
the header, `alloca(3*size.x)`, for `y` from 0 below `size.y` copy three of every four
bytes of native row `size.y-1-y` into `out` and `fwrite` it, print the final newline and
close. `stack` is the number of bytes the stack has left for `alloca`, `pixelBytes` the
memory behind `pixel`, byte by byte. -/
def writePPM (stack : Nat) (file : OutputFile) (size : vec2i) (pixelBytes : Nat → Nat) :
    PPMResult :=
  match file with
  | .cannotOpen => .fopenFailed
  | f =>
    let header := asciiBytes ("P6\n" ++ toString size.x ++ " " ++ toString size.y ++ "\n255\n")
    if inIntRange (3 * size.x) && decide (0 ≤ 3 * size.x) &&
        decide ((3 * size.x).toNat ≤ stack) then
      match (List.range size.y.toNat).mapM (ppmRow size pixelBytes) with
      | Option.none => .undefined
      | some rows => .written (f.keep (header ++ rows.flatten ++ asciiBytes "\n"))
    else .undefined

/-! ## Argument parsing and handle encoding -/

/-- Format unit `l` of `PyArg_ParseTuple`: an integer object to a C long. -/
def arg_l : PyObject → Option Int
  | .int v => some v
  | .bool b => some (if b then 1 else 0)
  | .long v => if LONG_MIN ≤ v ∧ v ≤ LONG_MAX then some v else Option.none
  | _ => Option.none

/-- Format unit `i`: as `l`, refused outside the range of a C int. -/
def arg_i (o : PyObject) : Option Int :=
  match arg_l o with
  | some v => if INT_MIN ≤ v ∧ v ≤ INT_MAX then some v else Option.none
  | Option.none => Option.none

/-- Format unit `f`: `(float)PyFloat_AsDouble(o)` of a float or an integer object; a long
integer that rounds to 2^1024 or beyond has no double and is refused. -/
def arg_f : PyObject → Option CFloat
  | .float d => some (.ofDouble d)
  | .int v => some (.ofDouble (.ofInteger v))
  | .bool b => some (.ofDouble (.ofInteger (if b then 1 else 0)))
  | .long v =>
    if -(2 ^ 1024 - 2 ^ 970) < v ∧ v < 2 ^ 1024 - 2 ^ 970 then some (.ofDouble (.ofInteger v))
    else Option.none
  | _ => Option.none

/-- Format unit `s`: a string without an embedded NUL (a unicode object must also be
plain ASCII, the default encoding). -/
def arg_s : PyObject → Option String
  | .str s => if s.toList.all (fun c => c.toNat ≠ 0) then some s else Option.none
  | .unicode s =>
    if s.toList.all (fun c => c.toNat ≠ 0 ∧ c.toNat < 128) then some s else Option.none
  | _ => Option.none

/-- Format `(ii)`: a sequence of exactly two C ints. -/
def arg_ii : PyObject → Option vec2i
  | .tuple [a, b] => do pure ⟨← arg_i a, ← arg_i b⟩
  | .list [a, b] => do pure ⟨← arg_i a, ← arg_i b⟩
  | _ => Option.none

/-- The 64-bit pointer a wrapper reads back from the C long stored into its
`OSPObject` variable. -/
def handleOfLong (v : Int) : Nat := (v % 2 ^ 64).toNat

/-- `Py_BuildValue("l", (uint64_t)p)`: the 64 bits read as a C long, as a plain integer. -/
def Py_BuildValue_l (p : Nat) : PyObject :=
  .int (if p % 2 ^ 64 < 2 ^ 63 then ((p % 2 ^ 64 : Nat) : Int)
    else ((p % 2 ^ 64 : Nat) : Int) - 2 ^ 64)

/-! ## Native calls -/

/-- The channel flags of the native header `ospray/ospray.h`, which the repository does
not contain: taken as parameters. -/
structure OSPFrameBufferChannel where
  OSP_FB_COLOR : Nat
  OSP_FB_DEPTH : Nat
  OSP_FB_ACCUM : Nat
  deriving DecidableEq, Repr

/-- The flag values of the OSPRay 1.x header: bits 0, 1 and 2. -/
def ospray_h : OSPFrameBufferChannel := ⟨1, 2, 4⟩

/-- The element encodings `ospray_newData` names. -/
inductive OSPDataType where
  | OSP_FLOAT3A
  | OSP_FLOAT4
  | OSP_INT3
  | OSP_LIGHT
  deriving DecidableEq, Repr

/-- The vector whose `data()` is handed to `ospNewData`. -/
inductive NativeArray where
  | floats (values : List CFloat)
  | ints (values : List CInt)
  | longs (values : List Int)
  deriving DecidableEq, Repr

/-- What a wrapper does to the outside: the native entry points it calls, with their
arguments, and the file `writePPM` leaves behind. -/
inductive Event where
  | ospCommit (object : Nat)
  | ospAddGeometry (model geom : Nat)
  | ospRelease (object : Nat)
  | ospFrameBufferClear (fb channels : Nat)
  | ospMapFrameBuffer (fb channel : Nat)
  | ppmFile (fileName : String) (bytes : List Nat)
  | ospUnmapFrameBuffer (pixels fb : Nat)
  | ospRenderFrame (fb renderer channels : Nat)
  | ospNewCamera (type : String)
  | ospNewRenderer (type : String)
  | ospNewLight3 (type : String)
  | ospNewModel
  | ospNewGeometry (type : String)
  | ospNewFrameBuffer (size : vec2i) (format : OSPFrameBufferFormat) (channels : Nat)
  | ospNewData (numItems : Int) (type : OSPDataType) (source : NativeArray) (flags : Nat)
  | ospSetObject (object : Nat) (id : String) (value : Nat)
  | ospSetData (object : Nat) (id : String) (value : Nat)
  | ospSet1i (object : Nat) (id : String) (value : Int)
  | ospSet1f (object : Nat) (id : String) (value : CFloat)
  | ospSet3fv (object : Nat) (id : String) (xyz : List CFloat)
  deriving DecidableEq, Repr

/-- How a wrapper ends: it returns a scripting value, it returns NULL after a failed
`PyArg_ParseTuple`, a `std::runtime_error` leaves it, an `assert` aborts it, or it runs
into undefined behaviour. -/
inductive Outcome where
  | returned (v : PyObject)
  | null
  | thrown (e : RuntimeError)
  | assertFailed
  | undefined
  deriving Repr

/-- One call of a wrapper: the events in order and how it ended. -/
structure Run where
  trace : List Event
  outcome : Outcome
  deriving Repr

/-- The loop over `channelStrings` that ORs the flags into `channels`, starting at 0. -/
def channelsLoop (hdr : OSPFrameBufferChannel) (channelStrings : List String) : Nat :=
  channelStrings.foldl (fun channels channel =>
    let c1 := if channel = "color" then channels ||| hdr.OSP_FB_COLOR else channels
    let c2 := if channel = "depth" then c1 ||| hdr.OSP_FB_DEPTH else c1
    if channel = "accum" then c2 ||| hdr.OSP_FB_ACCUM else c2) 0

/-! ## Entry-point wrappers

Each wrapper takes the items of its argument tuple. `ret` is the handle the native
constructor hands back. -/

def ospray_commit (args : List PyObject) : Run :=
  match args with
  | [a] =>
    match arg_l a with
    | some object => ⟨[.ospCommit (handleOfLong object)], .returned .none⟩
    | Option.none => ⟨[], .null⟩
  | _ => ⟨[], .null⟩

def ospray_addGeometry (args : List PyObject) : Run :=
  match args with
  | [a, b] =>
    match arg_l a, arg_l b with
    | some model, some geom =>
      ⟨[.ospAddGeometry (handleOfLong model) (handleOfLong geom)], .returned .none⟩
    | _, _ => ⟨[], .null⟩
  | _ => ⟨[], .null⟩

def ospray_release (args : List PyObject) : Run :=
  match args with
  | [a] =>
    match arg_l a with
    | some object => ⟨[.ospRelease (handleOfLong object)], .returned .none⟩
    | Option.none => ⟨[], .null⟩
  | _ => ⟨[], .null⟩

def ospray_frameBufferClear (hdr : OSPFrameBufferChannel) (args : List PyObject) : Run :=
  match args with
  | [a, channelsList] =>
    match arg_l a with
    | some fb =>
      match getStrings channelsList with
      | .error e => ⟨[], .thrown e⟩
      | .ok channelStrings =>
        ⟨[.ospFrameBufferClear (handleOfLong fb) (channelsLoop hdr channelStrings)],
          .returned .none⟩
    | Option.none => ⟨[], .null⟩
  | _ => ⟨[], .null⟩

/-- The wrapper of `ospFrameBufferSave`. `stack` is the stack left for `writePPM`, `file`
what `fopen` meets, `pixels` the address `ospMapFrameBuffer` returns and `pixelBytes`
the memory behind it. The parsed `format` is not used. -/
def ospray_frameBufferSave (hdr : OSPFrameBufferChannel) (stack : Nat) (file : OutputFile)
    (pixels : Nat) (pixelBytes : Nat → Nat) (args : List PyObject) : Run :=
  match args with
  | [a, b, c, d] =>
    match arg_s a, arg_l b, arg_ii c, arg_s d with
    | some fileName, some fb, some size, some _format =>
      match writePPM stack file size pixelBytes with
      | .undefined =>
        ⟨[.ospMapFrameBuffer (handleOfLong fb) hdr.OSP_FB_COLOR], .undefined⟩
      | .fopenFailed =>
        ⟨[.ospMapFrameBuffer (handleOfLong fb) hdr.OSP_FB_COLOR,
          .ospUnmapFrameBuffer pixels (handleOfLong fb)], .returned .none⟩
      | .written bytes =>
        ⟨[.ospMapFrameBuffer (handleOfLong fb) hdr.OSP_FB_COLOR,
          .ppmFile fileName bytes,
          .ospUnmapFrameBuffer pixels (handleOfLong fb)], .returned .none⟩
    | _, _, _, _ => ⟨[], .null⟩
  | _ => ⟨[], .null⟩

def ospray_renderFrame (hdr : OSPFrameBufferChannel) (args : List PyObject) : Run :=
  match args with
  | [a, b, channelsList] =>
    match arg_l a, arg_l b with
    | some fb, some renderer =>
      match getStrings channelsList with
      | .error e => ⟨[], .thrown e⟩
      | .ok channelStrings =>
        ⟨[.ospRenderFrame (handleOfLong fb) (handleOfLong renderer)
            (channelsLoop hdr channelStrings)], .returned .none⟩
    | _, _ => ⟨[], .null⟩
  | _ => ⟨[], .null⟩

def ospray_newCamera (ret : Nat) (args : List PyObject) : Run :=
  match args with
  | [a] =>
    match arg_s a with
    | some typeString => ⟨[.ospNewCamera typeString], .returned (Py_BuildValue_l ret)⟩
    | Option.none => ⟨[], .null⟩
  | _ => ⟨[], .null⟩

def ospray_newRenderer (ret : Nat) (args : List PyObject) : Run :=
  match args with
  | [a] =>
    match arg_s a with
    | some typeString => ⟨[.ospNewRenderer typeString], .returned (Py_BuildValue_l ret)⟩
    | Option.none => ⟨[], .null⟩
  | _ => ⟨[], .null⟩

def ospray_newLight (ret : Nat) (args : List PyObject) : Run :=
  match args with
  | [a] =>
    match arg_s a with
    | some typeString => ⟨[.ospNewLight3 typeString], .returned (Py_BuildValue_l ret)⟩
    | Option.none => ⟨[], .null⟩
  | _ => ⟨[], .null⟩

def ospray_newFrameBuffer (hdr : OSPFrameBufferChannel) (ret : Nat) (args : List PyObject) :
    Run :=
  match args with
  | [a, b, channelsList] =>
    match arg_ii a, arg_s b with
    | some size, some formatString =>
      match parseFrameBufferFormat formatString with
      | .error e => ⟨[], .thrown e⟩
      | .ok format =>
        match getStrings channelsList with
        | .error e => ⟨[], .thrown e⟩
        | .ok channelStrings =>
          ⟨[.ospNewFrameBuffer size format (channelsLoop hdr channelStrings)],
            .returned (Py_BuildValue_l ret)⟩
    | _, _ => ⟨[], .null⟩
  | _ => ⟨[], .null⟩

/-- The wrapper of `ospNewModel`: it does not look at its arguments. -/
def ospray_newModel (ret : Nat) (_args : List PyObject) : Run :=
  ⟨[.ospNewModel], .returned (Py_BuildValue_l ret)⟩

def ospray_newGeometry (ret : Nat) (args : List PyObject) : Run :=
  match args with
  | [a] =>
    match arg_s a with
    | some typeString => ⟨[.ospNewGeometry typeString], .returned (Py_BuildValue_l ret)⟩
    | Option.none => ⟨[], .null⟩
  | _ => ⟨[], .null⟩

def ospray_newData (ret : Nat) (args : List PyObject) : Run :=
  match args with
  | [a, b, valuesList] =>
    match arg_i a, arg_s b with
    | some numItems, some format =>
      if format = "float3a" ∨ format = "OSP_FLOAT3A" then
        match getFloats valuesList with
        | .error e => ⟨[], .thrown e⟩
        | .ok values =>
          ⟨[.ospNewData numItems .OSP_FLOAT3A (.floats values) 0],
            .returned (Py_BuildValue_l ret)⟩
      else if format = "float4" ∨ format = "OSP_FLOAT4" then
        match getFloats valuesList with
        | .error e => ⟨[], .thrown e⟩
        | .ok values =>
          ⟨[.ospNewData numItems .OSP_FLOAT4 (.floats values) 0],
            .returned (Py_BuildValue_l ret)⟩
      else if format = "int3" ∨ format = "OSP_INT3" then
        match getInts valuesList with
        | .error e => ⟨[], .thrown e⟩
        | .ok values =>
          ⟨[.ospNewData numItems .OSP_INT3 (.ints values) 0],
            .returned (Py_BuildValue_l ret)⟩
      else if format = "light" ∨ format = "OSP_LIGHT" then
        match getLongs valuesList with
        | .error e => ⟨[], .thrown e⟩
        | .ok values =>
          ⟨[.ospNewData numItems .OSP_LIGHT (.longs values) 0],
            .returned (Py_BuildValue_l ret)⟩
      else ⟨[], .thrown (.unknownDataFormat format)⟩
    | _, _ => ⟨[], .null⟩
  | _ => ⟨[], .null⟩

def ospray_setObject (args : List PyObject) : Run :=
  match args with
  | [a, b, c] =>
    match arg_l a, arg_s b, arg_l c with
    | some object, some varName, some value =>
      ⟨[.ospSetObject (handleOfLong object) varName (handleOfLong value)], .returned .none⟩
    | _, _, _ => ⟨[], .null⟩
  | _ => ⟨[], .null⟩

def ospray_setData (args : List PyObject) : Run :=
  match args with
  | [a, b, c] =>
    match arg_l a, arg_s b, arg_l c with
    | some object, some varName, some value =>
      ⟨[.ospSetData (handleOfLong object) varName (handleOfLong value)], .returned .none⟩
    | _, _, _ => ⟨[], .null⟩
  | _ => ⟨[], .null⟩

def ospray_set1i (args : List PyObject) : Run :=
  match args with
  | [a, b, c] =>
    match arg_l a, arg_s b, arg_i c with
    | some object, some varName, some value =>
      ⟨[.ospSet1i (handleOfLong object) varName value], .returned .none⟩
    | _, _, _ => ⟨[], .null⟩
  | _ => ⟨[], .null⟩

def ospray_set1f (args : List PyObject) : Run :=
  match args with
  | [a, b, c] =>
    match arg_l a, arg_s b, arg_f c with
    | some object, some varName, some value =>
      ⟨[.ospSet1f (handleOfLong object) varName value], .returned .none⟩
    | _, _, _ => ⟨[], .null⟩
  | _ => ⟨[], .null⟩

/-- The wrapper of `ospSet3fv`, with `assert(value.size() == 3)` as the file has it. -/
def ospray_set3fv (args : List PyObject) : Run :=
  match args with
  | [a, b, valuesList] =>
    match arg_l a, arg_s b with
    | some object, some varName =>
      match getFloats valuesList with
      | .error e => ⟨[], .thrown e⟩
      | .ok value =>
        if value.length = 3 then
          ⟨[.ospSet3fv (handleOfLong object) varName value], .returned .none⟩
        else ⟨[], .assertFailed⟩
    | _, _ => ⟨[], .null⟩
  | _ => ⟨[], .null⟩

/-! ## The specification's words -/

/-- An integral scripting value: a plain integer, a long integer or a boolean. -/
def isIntegral : PyObject → Bool
  | .int _ => true
  | .long _ => true
  | .bool _ => true
  | _ => false

/-- A floating-point or an integral scripting value. -/
def isFloatOrIntegral : PyObject → Bool
  | .float _ => true
  | o => isIntegral o

/-- The bitwise OR of the flags of the recognized names that occur in the list. -/
def recognizedFlags (hdr : OSPFrameBufferChannel) (names : List String) : Nat :=
  (if "color" ∈ names then hdr.OSP_FB_COLOR else 0) |||
  (if "depth" ∈ names then hdr.OSP_FB_DEPTH else 0) |||
  (if "accum" ∈ names then hdr.OSP_FB_ACCUM else 0)

/-- The eight element-format names `ospray_newData` knows. -/
def isDataFormatName (format : String) : Bool :=
  format = "float3a" || format = "OSP_FLOAT3A" || format = "float4" || format = "OSP_FLOAT4" ||
  format = "int3" || format = "OSP_INT3" || format = "light" || format = "OSP_LIGHT"

/-- The number of vector elements one item of an encoding takes: 4 floats for OSP_FLOAT3A
and OSP_FLOAT4, 3 ints for OSP_INT3, 1 handle for OSP_LIGHT. -/
def componentsPerItem : OSPDataType → Nat
  | .OSP_FLOAT3A => 4
  | .OSP_FLOAT4 => 4
  | .OSP_INT3 => 3
  | .OSP_LIGHT => 1

theorem pushBackLoop_ok_iff {α : Type} (conv : PyObject → Except RuntimeError α)
    (items : List PyObject) (acc values : List α) :
    pushBackLoop conv items acc = .ok values ↔
      ∃ vs, values = acc ++ vs ∧ items.map conv = vs.map Except.ok := by
  induction items generalizing acc with
  | nil =>
    simp [pushBackLoop]
    constructor
    · intro h; exact h.symm
    · intro h; exact h.symm
  | cons item rest ih =>
    cases hc : conv item with
    | error e =>
      simp [pushBackLoop, hc]
      intro vs _ h
      cases vs with
      | nil => simp at h
      | cons v vs => simp at h
    | ok v =>
      simp only [pushBackLoop, hc, ih, List.map_cons]
      constructor
      · rintro ⟨vs, h1, h2⟩
        exact ⟨v :: vs, by simp [h1], by simp [h2]⟩
      · rintro ⟨vs, h1, h2⟩
        cases vs with
        | nil => simp at h2
        | cons w ws =>
          simp at h2
          obtain ⟨h3, h4⟩ := h2
          subst h3
          exact ⟨ws, by simp [h1], h4⟩

theorem pushBackLoop_error {α : Type} (conv : PyObject → Except RuntimeError α)
    (items : List PyObject) (acc : List α) (e : RuntimeError)
    (h : pushBackLoop conv items acc = .error e) : ∃ item ∈ items, conv item = .error e := by
  induction items generalizing acc with
  | nil => simp [pushBackLoop] at h
  | cons item rest ih =>
    cases hc : conv item with
    | error e2 =>
      simp [pushBackLoop, hc] at h
      exact ⟨item, by simp, by rw [hc, h]⟩
    | ok v =>
      simp only [pushBackLoop, hc] at h
      obtain ⟨it, h1, h2⟩ := ih _ h
      exact ⟨it, by simp [h1], h2⟩

/-- A converter that runs `pushBackLoop` over the items of an iterable is the
all-or-nothing element-wise map of its scalar converter. -/
theorem seq_converter {α : Type} (conv : PyObject → Except RuntimeError α)
    (seq : PyObject → Except RuntimeError (List α))
    (hseq : ∀ o, seq o = match PyObject_GetIter o with
      | Option.none => .error .notAList
      | some items => pushBackLoop conv items [])
    (hkind : ∀ item e, conv item = .error e → e.kind = .TypeMismatch) (o : PyObject) :
    (PyObject_GetIter o = Option.none →
      ∃ e, seq o = .error e ∧ e.kind = .TypeMismatch) ∧
    (∀ items, PyObject_GetIter o = some items →
      (∀ values, seq o = .ok values ↔ items.map conv = values.map Except.ok) ∧
      ((∀ item ∈ items, ∃ v, conv item = .ok v) →
        ∃ values, seq o = .ok values ∧ values.length = items.length) ∧
      ((∃ item ∈ items, ∃ e, conv item = .error e) →
        ∃ e, seq o = .error e ∧ e.kind = .TypeMismatch)) := by
  constructor
  · intro h
    exact ⟨.notAList, by rw [hseq, h], rfl⟩
  · intro items h
    have hs : seq o = pushBackLoop conv items [] := by rw [hseq, h]
    have hiff : ∀ values, seq o = .ok values ↔ items.map conv = values.map Except.ok := by
      intro values
      rw [hs, pushBackLoop_ok_iff]
      simp
    refine ⟨hiff, ?_, ?_⟩
    · intro hall
      cases hr : pushBackLoop conv items [] with
      | ok values =>
        have hm := (hiff values).mp (by rw [hs, hr])
        have hl := congrArg List.length hm
        simp only [List.length_map] at hl
        exact ⟨values, by rw [hs, hr], hl.symm⟩
      | error e =>
        obtain ⟨item, h1, h2⟩ := pushBackLoop_error conv items [] e hr
        obtain ⟨v, hv⟩ := hall item h1
        rw [hv] at h2
        cases h2
    · rintro ⟨item, hmem, e, he⟩
      cases hr : pushBackLoop conv items [] with
      | ok values =>
        have hm := (hiff values).mp (by rw [hs, hr])
        have hin : conv item ∈ items.map conv := List.mem_map_of_mem conv hmem
        rw [hm, he] at hin
        simp at hin
      | error e2 =>
        obtain ⟨item2, _, h2⟩ := pushBackLoop_error conv items [] e2 hr
        exact ⟨e2, by rw [hs, hr], hkind item2 e2 h2⟩

theorem getFloat_kind (item : PyObject) (e : RuntimeError) (h : getFloat item = .error e) :
    e.kind = .TypeMismatch := by
  cases item <;> simp [getFloat, PyFloat_Check, PyLong_Check, PyInt_Check] at h <;>
    subst h <;> rfl

theorem getInt_kind (item : PyObject) (e : RuntimeError) (h : getInt item = .error e) :
    e.kind = .TypeMismatch := by
  cases item <;> simp [getInt, PyFloat_Check, PyLong_Check, PyInt_Check] at h <;>
    subst h <;> rfl

theorem getLong_kind (item : PyObject) (e : RuntimeError) (h : getLong item = .error e) :
    e.kind = .TypeMismatch := by
  cases item <;> simp [getLong, PyLong_Check, PyInt_Check] at h <;>
    subst h <;> rfl

theorem getString_kind (item : PyObject) (e : RuntimeError) (h : getString item = .error e) :
    e.kind = .TypeMismatch := by
  cases item <;> simp [getString, PyString_Check] at h <;>
    subst h <;> rfl

theorem getFloats_kind (o : PyObject) (e : RuntimeError) (h : getFloats o = .error e) :
    e.kind = .TypeMismatch := by
  unfold getFloats at h
  split at h
  · cases h; rfl
  · obtain ⟨item, _, h2⟩ := pushBackLoop_error _ _ _ _ h
    exact getFloat_kind item e h2

theorem getInts_kind (o : PyObject) (e : RuntimeError) (h : getInts o = .error e) :
    e.kind = .TypeMismatch := by
  unfold getInts at h
  split at h
  · cases h; rfl
  · obtain ⟨item, _, h2⟩ := pushBackLoop_error _ _ _ _ h
    exact getInt_kind item e h2

theorem getLongs_kind (o : PyObject) (e : RuntimeError) (h : getLongs o = .error e) :
    e.kind = .TypeMismatch := by
  unfold getLongs at h
  split at h
  · cases h; rfl
  · obtain ⟨item, _, h2⟩ := pushBackLoop_error _ _ _ _ h
    exact getLong_kind item e h2

/-- A list of strings converts to the strings read as C strings. -/
theorem getStrings_list_of_strings (names : List String) :
    getStrings (.list (names.map PyObject.str)) = .ok (names.map stdString) := by
  have h : ∀ (l acc : List String),
      pushBackLoop getString (l.map PyObject.str) acc = .ok (acc ++ l.map stdString) := by
    intro l
    induction l with
    | nil => intro acc; simp [pushBackLoop]
    | cons n ns ih =>
      intro acc
      simp [pushBackLoop, getString, PyString_Check, PyString_AsString, ih]
  simpa [getStrings, PyObject_GetIter] using h names []

/-- A string without a NUL byte is its own C string. -/
theorem stdString_of_no_nul (s : String) (h : ∀ c ∈ s.toList, c.toNat ≠ 0) :
    stdString s = s := by
  unfold stdString
  have e : (s.toList.takeWhile fun c => decide (c.toNat ≠ 0)) = s.toList :=
    List.takeWhile_eq_self_iff.mpr (fun c hc => by simpa using h c hc)
  rw [e]
  rfl

/-! ## Lemmas on the channel loop -/

theorem ite_or_lor (p q : Prop) [Decidable p] [Decidable q] (c : Nat) :
    (if p ∨ q then c else 0) = (if p then c else 0) ||| (if q then c else 0) := by
  by_cases hp : p <;> by_cases hq : q <;> simp [hp, hq]

theorem recognizedFlags_cons (hdr : OSPFrameBufferChannel) (n : String) (ns : List String) :
    recognizedFlags hdr (n :: ns) =
      ((if "color" = n then hdr.OSP_FB_COLOR else 0) |||
       (if "depth" = n then hdr.OSP_FB_DEPTH else 0) |||
       (if "accum" = n then hdr.OSP_FB_ACCUM else 0)) ||| recognizedFlags hdr ns := by
  simp only [recognizedFlags, List.mem_cons, ite_or_lor]
  apply Nat.eq_of_testBit_eq
  intro i
  simp only [Nat.testBit_lor]
  ac_rfl

theorem channels_fold (hdr : OSPFrameBufferChannel) (names : List String) (acc : Nat) :
    names.foldl (fun channels channel =>
      let c1 := if channel = "color" then channels ||| hdr.OSP_FB_COLOR else channels
      let c2 := if channel = "depth" then c1 ||| hdr.OSP_FB_DEPTH else c1
      if channel = "accum" then c2 ||| hdr.OSP_FB_ACCUM else c2) acc
    = acc ||| recognizedFlags hdr names := by
  induction names generalizing acc with
  | nil => simp [recognizedFlags]
  | cons n ns ih =>
    rw [List.foldl_cons, ih, recognizedFlags_cons]
    apply Nat.eq_of_testBit_eq
    intro i
    by_cases h1 : n = "color"
    · subst h1; simp [Nat.testBit_lor, Bool.or_assoc]
    · by_cases h2 : n = "depth"
      · subst h2; simp [Nat.testBit_lor, Bool.or_assoc]
      · by_cases h3 : n = "accum"
        · subst h3; simp [Nat.testBit_lor, Bool.or_assoc]
        · have e1 : ¬ "color" = n := fun h => h1 h.symm
          have e2 : ¬ "depth" = n := fun h => h2 h.symm
          have e3 : ¬ "accum" = n := fun h => h3 h.symm
          simp [Nat.testBit_lor, h1, h2, h3, e1, e2, e3]

/-- The loop of the wrappers computes the OR of the recognized flags. -/
theorem channelsLoop_eq (hdr : OSPFrameBufferChannel) (names : List String) :
    channelsLoop hdr names = recognizedFlags hdr names := by
  unfold channelsLoop
  rw [channels_fold]
  simp

/-! ## Lemmas on the PPM writer -/

theorem mapM_loop_option_some {α β : Type} (f : α → Option β) (g : α → β) (l : List α)
    (acc : List β) (h : ∀ a ∈ l, f a = some (g a)) :
    List.mapM.loop f l acc = some (acc.reverse ++ l.map g) := by
  induction l generalizing acc with
  | nil => simp [List.mapM.loop]
  | cons a as ih =>
    have ha : f a = some (g a) := h a (by simp)
    simp [List.mapM.loop, ha, ih (g a :: acc) (fun b hb => h b (by simp [hb]))]

theorem mapM_option_some {α β : Type} (f : α → Option β) (g : α → β) (l : List α)
    (h : ∀ a ∈ l, f a = some (g a)) : l.mapM f = some (l.map g) := by
  simp [List.mapM, mapM_loop_option_some f g l [] h]

theorem inIntRange_true (v : Int) (h1 : -2147483648 ≤ v) (h2 : v ≤ 2147483647) :
    inIntRange v = true := by
  simp [inIntRange, INT_MIN, INT_MAX, h1, h2]

theorem flatten_range_uniform {α : Type} (f : Nat → List α) (m n : Nat)
    (hlen : ∀ i, i < n → (f i).length = m) :
    ((List.range n).map f).flatten.length = n * m ∧
    ∀ i j, i < n → j < m → ((List.range n).map f).flatten[i * m + j]? = (f i)[j]? := by
  induction n with
  | zero => simp
  | succ n ih =>
    obtain ⟨ih1, ih2⟩ := ih (fun i hi => hlen i (by omega))
    have hn : (f n).length = m := hlen n (by omega)
    rw [List.range_succ, List.map_append, List.flatten_append]
    simp only [List.map_cons, List.map_nil, List.flatten_cons, List.flatten_nil,
      List.append_nil]
    constructor
    · rw [List.length_append, ih1, hn, Nat.succ_mul]
    · intro i j hi hj
      by_cases hin : i < n
      · have h1 : (i + 1) * m ≤ n * m := Nat.mul_le_mul_right m (by omega)
        have h2 : (i + 1) * m = i * m + m := Nat.succ_mul i m
        rw [List.getElem?_append_left (by rw [ih1]; omega)]
        exact ih2 i j hin hj
      · have hi2 : i = n := by omega
        subst hi2
        rw [List.getElem?_append_right (by rw [ih1]; omega), ih1]
        congr 1
        omega

theorem ppmPixel_in_range (pixelBytes : Nat → Nat) (r x : Nat)
    (hx : 4 * (x : Int) + 2 ≤ 2147483647) :
    ppmPixel pixelBytes (r : Int) x =
      some [pixelBytes (4 * (r + x) + 0), pixelBytes (4 * (r + x) + 1),
        pixelBytes (4 * (r + x) + 2)] := by
  have e0 : (4 * (r : Int) + 4 * (x : Int) + 0).toNat = 4 * (r + x) + 0 := by omega
  have e1 : (4 * (r : Int) + 4 * (x : Int) + 1).toNat = 4 * (r + x) + 1 := by omega
  have e2 : (4 * (r : Int) + 4 * (x : Int) + 2).toNat = 4 * (r + x) + 2 := by omega
  have i1 := inIntRange_true (3 * (x : Int)) (by omega) (by omega)
  have i2 := inIntRange_true (3 * (x : Int) + 2) (by omega) (by omega)
  have i3 := inIntRange_true (4 * (x : Int)) (by omega) (by omega)
  have i4 := inIntRange_true (4 * (x : Int) + 2) (by omega) (by omega)
  rw [ppmPixel, i1, i2, i3, i4, e0, e1, e2]
  rfl

theorem ppmRow_in_range (pixelBytes : Nat → Nat) (w h y : Nat) (hy : y < h)
    (hh : (h : Int) ≤ 2147483647) (hr : (h - 1) * w ≤ 2147483647)
    (h4 : 0 < w → 4 * (w : Int) ≤ 2147483649) :
    ppmRow ⟨(w : Int), (h : Int)⟩ pixelBytes y =
      some (((List.range w).map fun x =>
        [pixelBytes (4 * ((h - 1 - y) * w + x) + 0), pixelBytes (4 * ((h - 1 - y) * w + x) + 1),
          pixelBytes (4 * ((h - 1 - y) * w + x) + 2)]).flatten) := by
  have hd : ((h : Int) - 1 - (y : Int)) = ((h - 1 - y : Nat) : Int) := by omega
  have hle : (h - 1 - y) * w ≤ (h - 1) * w := Nat.mul_le_mul_right w (by omega)
  have hrow : ((h : Int) - 1 - (y : Int)) * (w : Int) = (((h - 1 - y) * w : Nat) : Int) := by
    rw [hd]; push_cast; rfl
  have hb : ((((h - 1 - y) * w : Nat) : Int)) ≤ 2147483647 := by
    have : (h - 1 - y) * w ≤ 2147483647 := le_trans hle hr
    exact_mod_cast this
  have i1 := inIntRange_true ((h : Int) - 1) (by omega) (by omega)
  have i2 := inIntRange_true ((h : Int) - 1 - (y : Int)) (by omega) (by omega)
  have i3 := inIntRange_true ((((h - 1 - y) * w : Nat) : Int)) (by omega) hb
  rw [ppmRow]
  simp only [hrow, i1, i2, i3, Int.toNat_ofNat]
  rw [mapM_option_some (ppmPixel pixelBytes (((h - 1 - y) * w : Nat) : Int))
    (fun x => [pixelBytes (4 * ((h - 1 - y) * w + x) + 0),
      pixelBytes (4 * ((h - 1 - y) * w + x) + 1), pixelBytes (4 * ((h - 1 - y) * w + x) + 2)])]
  · rfl
  · intro x hx
    have hx2 : x < w := List.mem_range.mp hx
    exact ppmPixel_in_range pixelBytes ((h - 1 - y) * w) x (by omega)


theorem toString_natCast (n : Nat) : toString ((n : Nat) : Int) = toString n := rfl

/-- The run of `writePPM` on an image of `w` by `h` pixels whose `int` arithmetic is in
range and whose row buffer fits the stack. -/
theorem writePPM_in_range (stack : Nat) (file : OutputFile) (w h : Nat)
    (pixelBytes : Nat → Nat) (hh : h ≤ 2147483647) (h3 : 3 * w ≤ 2147483647)
    (hs : 3 * w ≤ stack)
    (h4 : 0 < h → 4 * w ≤ 2147483649 ∧ (h - 1) * w ≤ 2147483647) :
    writePPM stack file ⟨(w : Int), (h : Int)⟩ pixelBytes =
      match file with
      | .cannotOpen => .fopenFailed
      | f =>
        .written (f.keep
          (asciiBytes ("P6\n" ++ toString w ++ " " ++ toString h ++ "\n255\n") ++
          ((List.range h).map fun y => ((List.range w).map fun x =>
            [pixelBytes (4 * ((h - 1 - y) * w + x) + 0),
              pixelBytes (4 * ((h - 1 - y) * w + x) + 1),
              pixelBytes (4 * ((h - 1 - y) * w + x) + 2)]).flatten).flatten ++
          asciiBytes "\n")) := by
  have hrows : (List.range h).mapM (ppmRow ⟨(w : Int), (h : Int)⟩ pixelBytes) =
      some ((List.range h).map fun y => ((List.range w).map fun x =>
        [pixelBytes (4 * ((h - 1 - y) * w + x) + 0), pixelBytes (4 * ((h - 1 - y) * w + x) + 1),
          pixelBytes (4 * ((h - 1 - y) * w + x) + 2)]).flatten) := by
    apply mapM_option_some
    intro y hy
    have hy2 : y < h := List.mem_range.mp hy
    obtain ⟨h5, h6⟩ := h4 (by omega)
    exact ppmRow_in_range pixelBytes w h y hy2 (by omega) h6 (fun _ => by omega)
  have i0 := inIntRange_true (3 * (w : Int)) (by omega) (by omega)
  have hnn : decide (0 ≤ 3 * (w : Int)) = true := by
    simp only [decide_eq_true_eq]; omega
  have hst : decide ((3 * (w : Int)).toNat ≤ stack) = true := by
    simp only [decide_eq_true_eq]; omega
  cases file with
  | cannotOpen => rfl
  | takes capacity =>
    unfold writePPM
    simp only [i0, hnn, hst, Bool.and_self, if_true, Int.toNat_ofNat, hrows, toString_natCast]
  | writable =>
    unfold writePPM
    simp only [i0, hnn, hst, Bool.and_self, if_true, Int.toNat_ofNat, hrows, toString_natCast]

/-- An `int` overflow of `3*size.x` leaves the run of `writePPM` undefined. -/
theorem writePPM_undefined_of_overflow (stack : Nat) (file : OutputFile) (size : vec2i)
    (pixelBytes : Nat → Nat) (hf : file ≠ .cannotOpen)
    (hr : inIntRange (3 * size.x) = false) :
    writePPM stack file size pixelBytes = .undefined := by
  cases file with
  | cannotOpen => exact absurd rfl hf
  | takes capacity =>
    unfold writePPM
    simp only [hr, Bool.false_and, Bool.false_eq_true, if_false]
  | writable =>
    unfold writePPM
    simp only [hr, Bool.false_and, Bool.false_eq_true, if_false]

/-! ## Lemmas on the handle encoding -/

theorem handle_decode_encode (h : Nat) (hh : h < 2 ^ 64) :
    ∃ v, Py_BuildValue_l h = .int v ∧ arg_l (.int v) = some v ∧ handleOfLong v = h ∧
      v = (if h < 2 ^ 63 then (h : Int) else (h : Int) - 2 ^ 64) ∧
      LONG_MIN ≤ v ∧ v ≤ LONG_MAX := by
  have hm : h % 2 ^ 64 = h := Nat.mod_eq_of_lt hh
  refine ⟨if h < 2 ^ 63 then (h : Int) else (h : Int) - 2 ^ 64, ?_, rfl, ?_, rfl, ?_, ?_⟩
  · simp only [Py_BuildValue_l, hm]
  · unfold handleOfLong
    split <;> omega
  · unfold LONG_MIN
    split <;> omega
  · unfold LONG_MAX
    split <;> omega

/-- The integers a creation wrapper returns for handles convert, through `getLong`, to
C longs that hold the handles again. -/
theorem getLongs_handles (hs : List Nat) (hlt : ∀ p ∈ hs, p < 2 ^ 64) :
    ∃ values, getLongs (.list (hs.map Py_BuildValue_l)) = .ok values ∧
      values.map handleOfLong = hs := by
  have hm : ∃ values : List Int, (hs.map Py_BuildValue_l).map getLong = values.map Except.ok ∧
      values.map handleOfLong = hs := by
    induction hs with
    | nil => exact ⟨[], rfl, rfl⟩
    | cons p ps ih =>
      obtain ⟨vs, h1, h2⟩ := ih (fun q hq => hlt q (by simp [hq]))
      obtain ⟨v, hv1, _, hv3, _⟩ := handle_decode_encode p (hlt p (by simp))
      refine ⟨v :: vs, ?_, ?_⟩
      · simp only [List.map_cons, hv1, h1]
        rfl
      · simp only [List.map_cons, hv3, h2]
  obtain ⟨values, h1, h2⟩ := hm
  refine ⟨values, ?_, h2⟩
  show pushBackLoop getLong (hs.map Py_BuildValue_l) [] = .ok values
  exact (pushBackLoop_ok_iff getLong _ [] values).mpr ⟨values, by simp, h1⟩

/-- Whatever `ospray_newData` returns is the handle of the native call as an integer. -/
theorem newData_returned (ret : Nat) (args : List PyObject) (v : PyObject)
    (hv : (ospray_newData ret args).outcome = .returned v) : v = Py_BuildValue_l ret := by
  unfold ospray_newData at hv
  repeat' split at hv
  all_goals first
    | (cases hv; rfl)
    | cases hv

/-! ## Channel masks -/

/-- C1, as stated, fails: the name "color\0x" is none of the recognized names, yet
`getString` reads it as the C string "color" and the mask gets the color flag. -/
theorem channel_mask_counts_cut_name :
    "color\x00x" ≠ "color" ∧ "color\x00x" ≠ "depth" ∧ "color\x00x" ≠ "accum" ∧
    recognizedFlags ospray_h ["color\x00x"] = 0 ∧
    ospray_frameBufferClear ospray_h [.int 5, .list [.str "color\x00x"]] =
      ⟨[.ospFrameBufferClear 5 1], .returned .none⟩ :=
  ⟨by decide, by decide, by decide, by decide, rfl⟩

/-- C1, amended: for every list of channel-name strings, clear-frame-buffer, render-frame
and new-frame-buffer (with the format "srgba", the one that reaches the native call)
hand the native call the bitwise OR of the flags of the recognized names "color",
"depth", "accum" that occur in the list once every name is cut at its first NUL byte,
and return without error; names without a NUL byte are left as they are by the cut; the
mask depends only on which recognized names are present among the cut names and is 0
when none is. -/
theorem channel_mask_is_or_of_recognized_flags (hdr : OSPFrameBufferChannel)
    (names : List String) :
    (∀ a fb, arg_l a = some fb →
      ospray_frameBufferClear hdr [a, .list (names.map PyObject.str)] =
        ⟨[.ospFrameBufferClear (handleOfLong fb)
            (recognizedFlags hdr (names.map stdString))], .returned .none⟩) ∧
    (∀ a b fb renderer, arg_l a = some fb → arg_l b = some renderer →
      ospray_renderFrame hdr [a, b, .list (names.map PyObject.str)] =
        ⟨[.ospRenderFrame (handleOfLong fb) (handleOfLong renderer)
            (recognizedFlags hdr (names.map stdString))], .returned .none⟩) ∧
    (∀ ret a b size, arg_ii a = some size → arg_s b = some "srgba" →
      ospray_newFrameBuffer hdr ret [a, b, .list (names.map PyObject.str)] =
        ⟨[.ospNewFrameBuffer size .OSP_FB_SRGBA
            (recognizedFlags hdr (names.map stdString))],
          .returned (Py_BuildValue_l ret)⟩) ∧
    ((∀ n ∈ names, ∀ c ∈ n.toList, c.toNat ≠ 0) → names.map stdString = names) ∧
    (∀ names2 : List String, ("color" ∈ names.map stdString ↔ "color" ∈ names2.map stdString) →
      ("depth" ∈ names.map stdString ↔ "depth" ∈ names2.map stdString) →
      ("accum" ∈ names.map stdString ↔ "accum" ∈ names2.map stdString) →
      channelsLoop hdr (names.map stdString) = channelsLoop hdr (names2.map stdString)) ∧
    ("color" ∉ names.map stdString → "depth" ∉ names.map stdString →
      "accum" ∉ names.map stdString → channelsLoop hdr (names.map stdString) = 0) := by
  refine ⟨?_, ?_, ?_, ?_, ?_, ?_⟩
  · intro a fb h
    simp [ospray_frameBufferClear, h, getStrings_list_of_strings, channelsLoop_eq]
  · intro a b fb renderer h1 h2
    simp [ospray_renderFrame, h1, h2, getStrings_list_of_strings, channelsLoop_eq]
  · intro ret a b size h1 h2
    simp [ospray_newFrameBuffer, h1, h2, parseFrameBufferFormat, getStrings_list_of_strings,
      channelsLoop_eq]
  · intro h
    induction names with
    | nil => rfl
    | cons n ns ih =>
      rw [List.map_cons, stdString_of_no_nul n (h n (by simp)),
        ih (fun m hm => h m (by simp [hm]))]
  · intro names2 h1 h2 h3
    simp only [channelsLoop_eq, recognizedFlags, h1, h2, h3]
  · intro h1 h2 h3
    simp only [channelsLoop_eq, recognizedFlags, h1, h2, h3, if_false]
    rfl

/-- C1 at concrete calls: duplicated, unordered and unknown names, and a name with a
trailing NUL, with the header's flag values 1, 2, 4. -/
theorem channel_mask_is_or_of_recognized_flags_witness :
    ospray_frameBufferClear ospray_h
        [.int 5, .list [.str "accum", .str "bogus", .str "color", .str "accum"]] =
      ⟨[.ospFrameBufferClear 5 5], .returned .none⟩ ∧
    ospray_renderFrame ospray_h [.int 5, .int 6, .list [.str "depth", .str "depth\x00"]] =
      ⟨[.ospRenderFrame 5 6 2], .returned .none⟩ ∧
    ospray_newFrameBuffer ospray_h 9 [.tuple [.int 2, .int 1], .str "srgba", .list []] =
      ⟨[.ospNewFrameBuffer ⟨2, 1⟩ .OSP_FB_SRGBA 0], .returned (.int 9)⟩ ∧
    ["accum", "bogus"].map stdString = ["accum", "bogus"] :=
  ⟨(channel_mask_is_or_of_recognized_flags ospray_h ["accum", "bogus", "color", "accum"]).1
      (.int 5) 5 rfl,
   (channel_mask_is_or_of_recognized_flags ospray_h ["depth", "depth\x00"]).2.1
      (.int 5) (.int 6) 5 6 rfl rfl,
   (channel_mask_is_or_of_recognized_flags ospray_h []).2.2.1
      9 (.tuple [.int 2, .int 1]) (.str "srgba") ⟨2, 1⟩ rfl rfl,
   (channel_mask_is_or_of_recognized_flags ospray_h ["accum", "bogus"]).2.2.2.1
      (by decide)⟩

/-! ## The PPM file -/

/-- C2, as stated, fails in three ways: at width 2^30 and height 1 the product
`3*size.x` overflows `int` whatever the stack; at width 3000000 the row buffer of
9000000 bytes does not fit a stack of 8 MiB; and a file that opens but takes no byte
stays empty. In none of them is the claimed file produced. -/
theorem writePPM_not_for_every_size :
    (0 : Int) ≤ 1073741824 ∧ (0 : Int) ≤ 3000000 ∧ (0 : Int) ≤ 1 ∧
    (∀ stack bytes, writePPM stack .writable ⟨1073741824, 1⟩ (fun _ => 0) ≠ .written bytes) ∧
    writePPM 8388608 .writable ⟨3000000, 1⟩ (fun _ => 0) = .undefined ∧
    writePPM 8388608 (.takes 0) ⟨2, 1⟩ (fun i => i + 100) = .written [] := by
  refine ⟨by decide, by decide, by decide, ?_, by decide, by decide⟩
  intro stack bytes hb
  rw [writePPM_undefined_of_overflow stack .writable ⟨1073741824, 1⟩ (fun _ => 0)
    (by decide) (by decide)] at hb
  cases hb

/-- C2, amended: for every width `w` and height `h` (a C int) for which the `int`
expressions of `writePPM` do not overflow (`3*w` fits, and when `h > 0` so do `4*w-2` and
`(h-1)*w`) and the `3*w` bytes of the row buffer fit the stack left for `alloca`, an
output file that opens and takes every byte holds exactly the header
"P6\n<w> <h>\n255\n", then a body of `3*w*h` bytes whose byte `k` (`k = 0, 1, 2`) of
pixel `x` of row `y` is byte `k` of the 4-byte source pixel `x` of native row `h-1-y`,
then a single "\n"; a file that takes only its first `capacity` bytes holds the first
`capacity` bytes of that. -/
theorem writePPM_layout (stack w h : Nat) (pixelBytes : Nat → Nat)
    (hh : h ≤ 2147483647) (h3 : 3 * w ≤ 2147483647) (hs : 3 * w ≤ stack)
    (h4 : 0 < h → 4 * w ≤ 2147483649 ∧ (h - 1) * w ≤ 2147483647) :
    ∃ body, writePPM stack .writable ⟨(w : Int), (h : Int)⟩ pixelBytes =
        .written (asciiBytes ("P6\n" ++ toString w ++ " " ++ toString h ++ "\n255\n") ++
          body ++ asciiBytes "\n") ∧
      (∀ capacity, writePPM stack (.takes capacity) ⟨(w : Int), (h : Int)⟩ pixelBytes =
        .written ((asciiBytes ("P6\n" ++ toString w ++ " " ++ toString h ++ "\n255\n") ++
          body ++ asciiBytes "\n").take capacity)) ∧
      body.length = 3 * w * h ∧
      ∀ y x k, y < h → x < w → k < 3 →
        body[3 * (y * w + x) + k]? = some (pixelBytes (4 * ((h - 1 - y) * w + x) + k)) := by
  let pix : Nat → Nat → List Nat := fun y x =>
    [pixelBytes (4 * ((h - 1 - y) * w + x) + 0), pixelBytes (4 * ((h - 1 - y) * w + x) + 1),
      pixelBytes (4 * ((h - 1 - y) * w + x) + 2)]
  let rowf : Nat → List Nat := fun y => ((List.range w).map (pix y)).flatten
  have hpix : ∀ y, ∀ x, x < w → (pix y x).length = 3 := fun _ _ _ => rfl
  have hrow : ∀ y, y < h → (rowf y).length = 3 * w := by
    intro y _
    rw [(flatten_range_uniform (pix y) 3 w (hpix y)).1, Nat.mul_comm]
  refine ⟨((List.range h).map rowf).flatten, ?_, ?_, ?_, ?_⟩
  · exact writePPM_in_range stack .writable w h pixelBytes hh h3 hs h4
  · intro capacity
    exact writePPM_in_range stack (.takes capacity) w h pixelBytes hh h3 hs h4
  · rw [(flatten_range_uniform rowf (3 * w) h hrow).1]
    ring
  · intro y x k hy hx hk
    have e : 3 * (y * w + x) + k = y * (3 * w) + (x * 3 + k) := by ring
    rw [e, (flatten_range_uniform rowf (3 * w) h hrow).2 y (x * 3 + k) hy (by omega)]
    show ((List.range w).map (pix y)).flatten[x * 3 + k]? = _
    rw [(flatten_range_uniform (pix y) 3 w (hpix y)).2 x k hx hk]
    match k, hk with
    | 0, _ => rfl
    | 1, _ => rfl
    | 2, _ => rfl

/-- C2 at size (2,1): the header is "P6\n2 1\n255\n" and the body has 6 bytes. -/
theorem writePPM_layout_witness :
    ∃ body, writePPM 8388608 .writable ⟨2, 1⟩ (fun i => i + 100) =
        .written (asciiBytes "P6\n2 1\n255\n" ++ body ++ asciiBytes "\n") ∧
      (∀ capacity, writePPM 8388608 (.takes capacity) ⟨2, 1⟩ (fun i => i + 100) =
        .written ((asciiBytes "P6\n2 1\n255\n" ++ body ++ asciiBytes "\n").take capacity)) ∧
      body.length = 6 ∧
      ∀ y x k, y < 1 → x < 2 → k < 3 →
        body[3 * (y * 2 + x) + k]? = some (4 * ((1 - 1 - y) * 2 + x) + k + 100) :=
  writePPM_layout 8388608 2 1 (fun i => i + 100) (by decide) (by decide) (by decide)
    (fun _ => by decide)

/-- The file of a 2-by-2 image whose source byte at offset `i` is `i + 100`: the second
native row comes first and every fourth byte is dropped. -/
theorem writePPM_size_2_2 :
    writePPM 8388608 .writable ⟨2, 2⟩ (fun i => i + 100) =
      .written (asciiBytes "P6\n2 2\n255\n" ++
        [108, 109, 110, 112, 113, 114, 100, 101, 102, 104, 105, 106] ++ [10]) := by
  decide

/-! ## Pixel-format and element-format names -/

/-- C3: save-frame-buffer called with the pixel-format name "rgba32f" maps, writes the
file, unmaps and returns the no-result value: the format name is parsed and never
looked at, while `parseFrameBufferFormat`, which new-frame-buffer applies to its own
format name, rejects that name. -/
theorem frameBufferSave_accepts_any_format :
    ospray_frameBufferSave ospray_h 8388608 .writable 4096 (fun i => i % 256)
        [.str "out.ppm", .int 7, .tuple [.int 2, .int 1], .str "rgba32f"] =
      ⟨[.ospMapFrameBuffer 7 1,
        .ppmFile "out.ppm" [80, 54, 10, 50, 32, 49, 10, 50, 53, 53, 10, 0, 1, 2, 4, 5, 6, 10],
        .ospUnmapFrameBuffer 4096 7], .returned .none⟩ ∧
    parseFrameBufferFormat "rgba32f" = .error (.unknownFrameBufferFormat "rgba32f") ∧
    (ospray_newFrameBuffer ospray_h 9
        [.tuple [.int 2, .int 1], .str "rgba32f", .list []]).outcome =
      .thrown (.unknownFrameBufferFormat "rgba32f") ∧
    (RuntimeError.unknownFrameBufferFormat "rgba32f").kind = .UnsupportedFormat :=
  ⟨rfl, rfl, rfl, rfl⟩

/-- C4: once the arguments parse, new-data picks the native encoding from the format name
by a closed lookup ("float3a"/"OSP_FLOAT3A": OSP_FLOAT3A over the list converted by
`getFloats`; "float4"/"OSP_FLOAT4": OSP_FLOAT4 over floats; "int3"/"OSP_INT3": OSP_INT3
over `getInts`; "light"/"OSP_LIGHT": OSP_LIGHT over `getLongs`), and it ends in an
UnsupportedFormat error, with no native call, exactly when the name is none of the
eight. -/
theorem newData_format_lookup (ret : Nat) (a b valuesList : PyObject) (numItems : Int)
    (format : String) (ha : arg_i a = some numItems) (hb : arg_s b = some format) :
    (format = "float3a" ∨ format = "OSP_FLOAT3A" → ∀ values, getFloats valuesList = .ok values →
      ospray_newData ret [a, b, valuesList] =
        ⟨[.ospNewData numItems .OSP_FLOAT3A (.floats values) 0],
          .returned (Py_BuildValue_l ret)⟩) ∧
    (format = "float4" ∨ format = "OSP_FLOAT4" → ∀ values, getFloats valuesList = .ok values →
      ospray_newData ret [a, b, valuesList] =
        ⟨[.ospNewData numItems .OSP_FLOAT4 (.floats values) 0],
          .returned (Py_BuildValue_l ret)⟩) ∧
    (format = "int3" ∨ format = "OSP_INT3" → ∀ values, getInts valuesList = .ok values →
      ospray_newData ret [a, b, valuesList] =
        ⟨[.ospNewData numItems .OSP_INT3 (.ints values) 0],
          .returned (Py_BuildValue_l ret)⟩) ∧
    (format = "light" ∨ format = "OSP_LIGHT" → ∀ values, getLongs valuesList = .ok values →
      ospray_newData ret [a, b, valuesList] =
        ⟨[.ospNewData numItems .OSP_LIGHT (.longs values) 0],
          .returned (Py_BuildValue_l ret)⟩) ∧
    (isDataFormatName format = false →
      ospray_newData ret [a, b, valuesList] = ⟨[], .thrown (.unknownDataFormat format)⟩) ∧
    ((∃ e, (ospray_newData ret [a, b, valuesList]).outcome = .thrown e ∧
        e.kind = .UnsupportedFormat) ↔ isDataFormatName format = false) := by
  refine ⟨?_, ?_, ?_, ?_, ?_, ?_⟩
  · intro h values hv
    simp [ospray_newData, ha, hb, h, hv]
  · intro h values hv
    rcases h with h | h <;> subst h <;> simp [ospray_newData, ha, hb, hv]
  · intro h values hv
    rcases h with h | h <;> subst h <;> simp [ospray_newData, ha, hb, hv]
  · intro h values hv
    rcases h with h | h <;> subst h <;> simp [ospray_newData, ha, hb, hv]
  · intro h
    simp [isDataFormatName] at h
    simp [ospray_newData, ha, hb, h]
  · constructor
    · rintro ⟨e, h1, h2⟩
      by_contra hf
      simp only [ospray_newData, ha, hb] at h1
      split at h1
      · split at h1
        · simp at h1
          rename_i e2 he
          have := getFloats_kind _ _ he
          rw [h1, h2] at this
          cases this
        · simp at h1
      · split at h1
        · split at h1
          · simp at h1
            rename_i e2 he
            have := getFloats_kind _ _ he
            rw [h1, h2] at this
            cases this
          · simp at h1
        · split at h1
          · split at h1
            · simp at h1
              rename_i e2 he
              have := getInts_kind _ _ he
              rw [h1, h2] at this
              cases this
            · simp at h1
          · split at h1
            · split at h1
              · simp at h1
                rename_i e2 he
                have := getLongs_kind _ _ he
                rw [h1, h2] at this
                cases this
              · simp at h1
            · apply hf
              simp [isDataFormatName]
              simp_all
    · intro h
      simp [isDataFormatName] at h
      exact ⟨.unknownDataFormat format, by simp [ospray_newData, ha, hb, h], rfl⟩

/-- C4 at concrete calls: "int3" reaches `ospNewData` with OSP_INT3 and the converted
ints, "double3" is thrown out as unsupported before any native call. -/
theorem newData_format_lookup_witness :
    ospray_newData 77 [.int 1, .str "int3", .list [.int 1, .int 2, .int 3]] =
      ⟨[.ospNewData 1 .OSP_INT3 (.ints [.ofLong 1, .ofLong 2, .ofLong 3]) 0],
        .returned (Py_BuildValue_l 77)⟩ ∧
    ospray_newData 77 [.int 1, .str "double3", .list [.int 1, .int 2, .int 3]] =
      ⟨[], .thrown (.unknownDataFormat "double3")⟩ :=
  ⟨(newData_format_lookup 77 (.int 1) (.str "int3") (.list [.int 1, .int 2, .int 3]) 1 "int3"
      rfl rfl).2.2.1 (Or.inl rfl) [.ofLong 1, .ofLong 2, .ofLong 3] rfl,
   (newData_format_lookup 77 (.int 1) (.str "double3") (.list [.int 1, .int 2, .int 3]) 1
      "double3" rfl rfl).2.2.2.2.1 (by decide)⟩

/-! ## Scalar and sequence converters -/

/-- C5, as stated, fails: a floating-point value is a floating-point-or-integral value,
`getFloat` and `getInt` convert it, and `getLong` throws on it. -/
theorem getLong_rejects_float :
    isFloatOrIntegral (.float (.bits 0)) = true ∧
    getLong (.float (.bits 0)) = .error .notALong ∧
    getFloat (.float (.bits 0)) = .ok (.ofDouble (.bits 0)) ∧
    getInt (.float (.bits 0)) = .ok (.ofDouble (.bits 0)) :=
  ⟨rfl, rfl, rfl, rfl⟩

/-- C5, amended: `getFloat` and `getInt` succeed exactly on a floating-point or integral
value, `getLong` succeeds exactly on an integral value (it has no branch for a
floating-point one), and each fails with a TypeMismatch error on every other value. -/
theorem scalar_acceptance (o : PyObject) :
    ((∃ v, getFloat o = .ok v ∧ isFloatOrIntegral o = true) ∨
      (∃ e, getFloat o = .error e ∧ e.kind = .TypeMismatch ∧ isFloatOrIntegral o = false)) ∧
    ((∃ v, getInt o = .ok v ∧ isFloatOrIntegral o = true) ∨
      (∃ e, getInt o = .error e ∧ e.kind = .TypeMismatch ∧ isFloatOrIntegral o = false)) ∧
    ((∃ v, getLong o = .ok v ∧ isIntegral o = true) ∨
      (∃ e, getLong o = .error e ∧ e.kind = .TypeMismatch ∧ isIntegral o = false)) := by
  cases o <;> simp [getFloat, getInt, getLong, PyFloat_Check, PyLong_Check, PyInt_Check,
    isFloatOrIntegral, isIntegral, RuntimeError.kind]

/-- C6: each of `getFloats`, `getInts`, `getLongs`, `getStrings` fails with a
TypeMismatch error on an input that is not iterable. On an iterable with items `items`
it returns `values` exactly when the scalar conversions of the items, in order, are the
successes `values` (the i-th value from the i-th item); it does return such a vector, of
the same length (empty for empty), when every item converts; and it returns no vector
but a TypeMismatch error when some item does not convert. -/
theorem sequence_converters_elementwise (o : PyObject) :
    ((PyObject_GetIter o = Option.none → ∃ e, getFloats o = .error e ∧ e.kind = .TypeMismatch) ∧
     (∀ items, PyObject_GetIter o = some items →
      (∀ values, getFloats o = .ok values ↔ items.map getFloat = values.map Except.ok) ∧
      ((∀ item ∈ items, ∃ v, getFloat item = .ok v) →
        ∃ values, getFloats o = .ok values ∧ values.length = items.length) ∧
      ((∃ item ∈ items, ∃ e, getFloat item = .error e) →
        ∃ e, getFloats o = .error e ∧ e.kind = .TypeMismatch))) ∧
    ((PyObject_GetIter o = Option.none → ∃ e, getInts o = .error e ∧ e.kind = .TypeMismatch) ∧
     (∀ items, PyObject_GetIter o = some items →
      (∀ values, getInts o = .ok values ↔ items.map getInt = values.map Except.ok) ∧
      ((∀ item ∈ items, ∃ v, getInt item = .ok v) →
        ∃ values, getInts o = .ok values ∧ values.length = items.length) ∧
      ((∃ item ∈ items, ∃ e, getInt item = .error e) →
        ∃ e, getInts o = .error e ∧ e.kind = .TypeMismatch))) ∧
    ((PyObject_GetIter o = Option.none → ∃ e, getLongs o = .error e ∧ e.kind = .TypeMismatch) ∧
     (∀ items, PyObject_GetIter o = some items →
      (∀ values, getLongs o = .ok values ↔ items.map getLong = values.map Except.ok) ∧
      ((∀ item ∈ items, ∃ v, getLong item = .ok v) →
        ∃ values, getLongs o = .ok values ∧ values.length = items.length) ∧
      ((∃ item ∈ items, ∃ e, getLong item = .error e) →
        ∃ e, getLongs o = .error e ∧ e.kind = .TypeMismatch))) ∧
    ((PyObject_GetIter o = Option.none → ∃ e, getStrings o = .error e ∧ e.kind = .TypeMismatch) ∧
     (∀ items, PyObject_GetIter o = some items →
      (∀ values, getStrings o = .ok values ↔ items.map getString = values.map Except.ok) ∧
      ((∀ item ∈ items, ∃ v, getString item = .ok v) →
        ∃ values, getStrings o = .ok values ∧ values.length = items.length) ∧
      ((∃ item ∈ items, ∃ e, getString item = .error e) →
        ∃ e, getStrings o = .error e ∧ e.kind = .TypeMismatch))) :=
  ⟨seq_converter getFloat getFloats (fun _ => rfl) getFloat_kind o,
   seq_converter getInt getInts (fun _ => rfl) getInt_kind o,
   seq_converter getLong getLongs (fun _ => rfl) getLong_kind o,
   seq_converter getString getStrings (fun _ => rfl) getString_kind o⟩

/-- C6 at concrete inputs: a mixed numeric list converts element by element, the empty
list gives the empty vector, a string among the numbers and a value that is not iterable
are TypeMismatch errors. -/
theorem sequence_converters_elementwise_witness :
    getFloats (.list [.int 1, .float (.bits 5), .long 7]) =
      .ok [.ofLong 1, .ofDouble (.bits 5), .ofLong 7] ∧
    getInts (.list []) = .ok [] ∧
    (∃ e, getFloats (.list [.int 1, .str "x"]) = .error e ∧ e.kind = .TypeMismatch) ∧
    (∃ e, getStrings (.int 3) = .error e ∧ e.kind = .TypeMismatch) :=
  ⟨(((sequence_converters_elementwise (.list [.int 1, .float (.bits 5), .long 7])).1.2
      [.int 1, .float (.bits 5), .long 7] rfl).1
      [.ofLong 1, .ofDouble (.bits 5), .ofLong 7]).mpr rfl,
   (((sequence_converters_elementwise (.list [])).2.1.2 [] rfl).1 []).mpr rfl,
   ((sequence_converters_elementwise (.list [.int 1, .str "x"])).1.2
      [.int 1, .str "x"] rfl).2.2 ⟨.str "x", by simp, .notAFloat, rfl⟩,
   (sequence_converters_elementwise (.int 3)).2.2.2.1 rfl⟩

/-! ## Map and unmap around the save -/

/-- C8: for every set-float3 call whose arguments parse and whose list converts, a
converted vector of length 3 reaches `ospSet3fv` as its three floats in order, and any
other length fails the assertion with no native call. -/
theorem set3fv_length_guard (a b valuesList : PyObject) (object : Int) (varName : String)
    (value : List CFloat) (ha : arg_l a = some object) (hb : arg_s b = some varName)
    (hv : getFloats valuesList = .ok value) :
    (value.length = 3 → ∃ x y z, value = [x, y, z] ∧
      ospray_set3fv [a, b, valuesList] =
        ⟨[.ospSet3fv (handleOfLong object) varName [x, y, z]], .returned .none⟩) ∧
    (value.length ≠ 3 → ospray_set3fv [a, b, valuesList] = ⟨[], .assertFailed⟩) := by
  constructor
  · intro h
    match value, h with
    | [x, y, z], _ => exact ⟨x, y, z, rfl, by simp [ospray_set3fv, ha, hb, hv]⟩
  · intro h
    simp [ospray_set3fv, ha, hb, hv, h]

/-- C8 at concrete calls: three numbers reach the setter, two do not. -/
theorem set3fv_length_guard_witness :
    (∃ x y z, [CFloat.ofLong 1, CFloat.ofLong 2, CFloat.ofLong 3] = [x, y, z] ∧
      ospray_set3fv [.int 8, .str "pos", .list [.int 1, .int 2, .int 3]] =
        ⟨[.ospSet3fv (handleOfLong 8) "pos" [x, y, z]], .returned .none⟩) ∧
    ospray_set3fv [.int 8, .str "pos", .list [.int 1, .int 2]] = ⟨[], .assertFailed⟩ :=
  ⟨(set3fv_length_guard (.int 8) (.str "pos") (.list [.int 1, .int 2, .int 3]) 8 "pos"
      [.ofLong 1, .ofLong 2, .ofLong 3] rfl rfl rfl).1 rfl,
   (set3fv_length_guard (.int 8) (.str "pos") (.list [.int 1, .int 2]) 8 "pos"
      [.ofLong 1, .ofLong 2] rfl rfl rfl).2 (by decide)⟩

/-- C9: for every argument tuple, commit, release, add-geometry, set-object, set-data,
set-int and set-float either return the no-result value or return NULL on a parse
failure, and set-float3 can besides only end in a TypeMismatch error or a failed
assertion; none returns an integer handle. Whenever the arguments parse (and, for
set-float3, the list converts to three floats) the call is made and the no-result value
is returned. -/
theorem set_commit_return_none (args : List PyObject) :
    (((ospray_commit args).outcome = .returned .none ∨ (ospray_commit args).outcome = .null) ∧
     ((ospray_release args).outcome = .returned .none ∨ (ospray_release args).outcome = .null) ∧
     ((ospray_addGeometry args).outcome = .returned .none ∨
      (ospray_addGeometry args).outcome = .null) ∧
     ((ospray_setObject args).outcome = .returned .none ∨
      (ospray_setObject args).outcome = .null) ∧
     ((ospray_setData args).outcome = .returned .none ∨
      (ospray_setData args).outcome = .null) ∧
     ((ospray_set1i args).outcome = .returned .none ∨ (ospray_set1i args).outcome = .null) ∧
     ((ospray_set1f args).outcome = .returned .none ∨ (ospray_set1f args).outcome = .null) ∧
     ((ospray_set3fv args).outcome = .returned .none ∨ (ospray_set3fv args).outcome = .null ∨
      (∃ e, (ospray_set3fv args).outcome = .thrown e ∧ e.kind = .TypeMismatch) ∨
      (ospray_set3fv args).outcome = .assertFailed)) ∧
    ((∀ a object, arg_l a = some object →
       ospray_commit [a] = ⟨[.ospCommit (handleOfLong object)], .returned .none⟩) ∧
     (∀ a object, arg_l a = some object →
       ospray_release [a] = ⟨[.ospRelease (handleOfLong object)], .returned .none⟩) ∧
     (∀ a b model geom, arg_l a = some model → arg_l b = some geom →
       ospray_addGeometry [a, b] =
         ⟨[.ospAddGeometry (handleOfLong model) (handleOfLong geom)], .returned .none⟩) ∧
     (∀ a b c object varName value, arg_l a = some object → arg_s b = some varName →
       arg_l c = some value →
       ospray_setObject [a, b, c] =
         ⟨[.ospSetObject (handleOfLong object) varName (handleOfLong value)],
           .returned .none⟩) ∧
     (∀ a b c object varName value, arg_l a = some object → arg_s b = some varName →
       arg_l c = some value →
       ospray_setData [a, b, c] =
         ⟨[.ospSetData (handleOfLong object) varName (handleOfLong value)],
           .returned .none⟩) ∧
     (∀ a b c object varName value, arg_l a = some object → arg_s b = some varName →
       arg_i c = some value →
       ospray_set1i [a, b, c] =
         ⟨[.ospSet1i (handleOfLong object) varName value], .returned .none⟩) ∧
     (∀ a b c object varName value, arg_l a = some object → arg_s b = some varName →
       arg_f c = some value →
       ospray_set1f [a, b, c] =
         ⟨[.ospSet1f (handleOfLong object) varName value], .returned .none⟩) ∧
     (∀ a b c object varName value, arg_l a = some object → arg_s b = some varName →
       getFloats c = .ok value → value.length = 3 →
       ospray_set3fv [a, b, c] =
         ⟨[.ospSet3fv (handleOfLong object) varName value], .returned .none⟩)) := by
  refine ⟨⟨?_, ?_, ?_, ?_, ?_, ?_, ?_, ?_⟩, ⟨?_, ?_, ?_, ?_, ?_, ?_, ?_, ?_⟩⟩
  · unfold ospray_commit; split <;> (try split) <;> simp
  · unfold ospray_release; split <;> (try split) <;> simp
  · unfold ospray_addGeometry; split <;> (try split) <;> simp
  · unfold ospray_setObject; split <;> (try split) <;> simp
  · unfold ospray_setData; split <;> (try split) <;> simp
  · unfold ospray_set1i; split <;> (try split) <;> simp
  · unfold ospray_set1f; split <;> (try split) <;> simp
  · unfold ospray_set3fv
    split
    · split
      · split
        · rename_i e he
          exact Or.inr (Or.inr (Or.inl ⟨e, rfl, getFloats_kind _ _ he⟩))
        · split <;> simp
      · simp
    · simp
  · intro a object h; simp [ospray_commit, h]
  · intro a object h; simp [ospray_release, h]
  · intro a b model geom h1 h2; simp [ospray_addGeometry, h1, h2]
  · intro a b c object varName value h1 h2 h3; simp [ospray_setObject, h1, h2, h3]
  · intro a b c object varName value h1 h2 h3; simp [ospray_setData, h1, h2, h3]
  · intro a b c object varName value h1 h2 h3; simp [ospray_set1i, h1, h2, h3]
  · intro a b c object varName value h1 h2 h3; simp [ospray_set1f, h1, h2, h3]
  · intro a b c object varName value h1 h2 h3 h4; simp [ospray_set3fv, h1, h2, h3, h4]

/-- C9 at concrete calls: a commit and a set-float that parse return the no-result
value. -/
theorem set_commit_return_none_witness :
    ospray_commit [.int 12] = ⟨[.ospCommit (handleOfLong 12)], .returned .none⟩ ∧
    ospray_set1f [.int 12, .str "fovy", .float (.bits 0)] =
      ⟨[.ospSet1f (handleOfLong 12) "fovy" (.ofDouble (.bits 0))], .returned .none⟩ :=
  ⟨(set_commit_return_none []).2.1 (.int 12) 12 rfl,
   (set_commit_return_none []).2.2.2.2.2.2.2.1 (.int 12) (.str "fovy") (.float (.bits 0)) 12
     "fovy" (.ofDouble (.bits 0)) rfl rfl rfl⟩

/-! ## Handles -/

/-- C10: for every 64-bit handle `h`, every creation wrapper (new-camera, new-renderer,
new-light, new-geometry, new-model, new-frame-buffer, new-data) returns the plain
integer whose value is `h` read as a signed 64-bit number (`h` below 2^63, `h - 2^64`
from there on), and that integer, passed back to a handle-taking wrapper (commit,
release, add-geometry, set-object, set-data, set-int, set-float, set-float3, clear,
render, save, and the handle list of a "light" data array), is decoded to exactly `h`
at the native call. -/
theorem handle_round_trip (h : Nat) (hh : h < 2 ^ 64) :
    (Py_BuildValue_l h = .int (if h < 2 ^ 63 then (h : Int) else (h : Int) - 2 ^ 64) ∧
     (∀ a typeString, arg_s a = some typeString →
       ospray_newCamera h [a] =
         ⟨[.ospNewCamera typeString], .returned (Py_BuildValue_l h)⟩) ∧
     (∀ a typeString, arg_s a = some typeString →
       ospray_newRenderer h [a] =
         ⟨[.ospNewRenderer typeString], .returned (Py_BuildValue_l h)⟩) ∧
     (∀ a typeString, arg_s a = some typeString →
       ospray_newLight h [a] =
         ⟨[.ospNewLight3 typeString], .returned (Py_BuildValue_l h)⟩) ∧
     (∀ a typeString, arg_s a = some typeString →
       ospray_newGeometry h [a] =
         ⟨[.ospNewGeometry typeString], .returned (Py_BuildValue_l h)⟩) ∧
     (∀ args, ospray_newModel h args = ⟨[.ospNewModel], .returned (Py_BuildValue_l h)⟩) ∧
     (∀ hdr a b size (names : List String), arg_ii a = some size → arg_s b = some "srgba" →
       ospray_newFrameBuffer hdr h [a, b, .list (names.map PyObject.str)] =
         ⟨[.ospNewFrameBuffer size .OSP_FB_SRGBA (channelsLoop hdr (names.map stdString))],
           .returned (Py_BuildValue_l h)⟩) ∧
     (∀ args v, (ospray_newData h args).outcome = .returned v → v = Py_BuildValue_l h) ∧
     (∀ a n (hs : List Nat), arg_i a = some n → (∀ p ∈ hs, p < 2 ^ 64) →
       ∃ values, values.map handleOfLong = hs ∧
         ospray_newData h [a, .str "light", .list (hs.map Py_BuildValue_l)] =
           ⟨[.ospNewData n .OSP_LIGHT (.longs values) 0], .returned (Py_BuildValue_l h)⟩)) ∧
    ((∃ v, Py_BuildValue_l h = .int v ∧ arg_l (Py_BuildValue_l h) = some v ∧
       handleOfLong v = h) ∧
     ospray_commit [Py_BuildValue_l h] = ⟨[.ospCommit h], .returned .none⟩ ∧
     ospray_release [Py_BuildValue_l h] = ⟨[.ospRelease h], .returned .none⟩ ∧
     (∀ g, g < 2 ^ 64 →
       ospray_addGeometry [Py_BuildValue_l h, Py_BuildValue_l g] =
         ⟨[.ospAddGeometry h g], .returned .none⟩) ∧
     (∀ b varName g, arg_s b = some varName → g < 2 ^ 64 →
       ospray_setObject [Py_BuildValue_l h, b, Py_BuildValue_l g] =
         ⟨[.ospSetObject h varName g], .returned .none⟩) ∧
     (∀ b varName g, arg_s b = some varName → g < 2 ^ 64 →
       ospray_setData [Py_BuildValue_l h, b, Py_BuildValue_l g] =
         ⟨[.ospSetData h varName g], .returned .none⟩) ∧
     (∀ b c varName value, arg_s b = some varName → arg_i c = some value →
       ospray_set1i [Py_BuildValue_l h, b, c] =
         ⟨[.ospSet1i h varName value], .returned .none⟩) ∧
     (∀ b c varName value, arg_s b = some varName → arg_f c = some value →
       ospray_set1f [Py_BuildValue_l h, b, c] =
         ⟨[.ospSet1f h varName value], .returned .none⟩) ∧
     (∀ b c varName value, arg_s b = some varName → getFloats c = .ok value →
       value.length = 3 →
       ospray_set3fv [Py_BuildValue_l h, b, c] =
         ⟨[.ospSet3fv h varName value], .returned .none⟩) ∧
     (∀ hdr (names : List String),
       ospray_frameBufferClear hdr [Py_BuildValue_l h, .list (names.map PyObject.str)] =
         ⟨[.ospFrameBufferClear h (channelsLoop hdr (names.map stdString))],
           .returned .none⟩) ∧
     (∀ hdr (names : List String) r, r < 2 ^ 64 →
       ospray_renderFrame hdr
           [Py_BuildValue_l h, Py_BuildValue_l r, .list (names.map PyObject.str)] =
         ⟨[.ospRenderFrame h r (channelsLoop hdr (names.map stdString))],
           .returned .none⟩) ∧
     (∀ hdr stack file pixels pixelBytes a c d fileName size format,
       arg_s a = some fileName → arg_ii c = some size → arg_s d = some format →
       (ospray_frameBufferSave hdr stack file pixels pixelBytes
           [a, Py_BuildValue_l h, c, d]).trace = [.ospMapFrameBuffer h hdr.OSP_FB_COLOR] ∨
       (ospray_frameBufferSave hdr stack file pixels pixelBytes
           [a, Py_BuildValue_l h, c, d]).trace =
         [.ospMapFrameBuffer h hdr.OSP_FB_COLOR, .ospUnmapFrameBuffer pixels h] ∨
       ∃ bytes, (ospray_frameBufferSave hdr stack file pixels pixelBytes
           [a, Py_BuildValue_l h, c, d]).trace =
         [.ospMapFrameBuffer h hdr.OSP_FB_COLOR, .ppmFile fileName bytes,
           .ospUnmapFrameBuffer pixels h])) := by
  obtain ⟨v, hv1, hv2, hv3, hv4, _, _⟩ := handle_decode_encode h hh
  have hm : h % 2 ^ 64 = h := Nat.mod_eq_of_lt hh
  refine ⟨⟨?_, ?_, ?_, ?_, ?_, ?_, ?_, ?_, ?_⟩,
    ⟨?_, ?_, ?_, ?_, ?_, ?_, ?_, ?_, ?_, ?_, ?_, ?_⟩⟩
  · simp only [Py_BuildValue_l, hm]
  · intro a typeString ha
    simp only [ospray_newCamera, ha]
  · intro a typeString ha
    simp only [ospray_newRenderer, ha]
  · intro a typeString ha
    simp only [ospray_newLight, ha]
  · intro a typeString ha
    simp only [ospray_newGeometry, ha]
  · intro args
    rfl
  · intro hdr a b size names ha hb
    simp [ospray_newFrameBuffer, ha, hb, parseFrameBufferFormat, getStrings_list_of_strings]
  · intro args w hw
    exact newData_returned h args w hw
  · intro a n hs ha hlt
    obtain ⟨values, hg, hmap⟩ := getLongs_handles hs hlt
    refine ⟨values, hmap, ?_⟩
    have hb : arg_s (.str "light") = some "light" := by decide
    simp [ospray_newData, ha, hb, hg]
  · exact ⟨v, hv1, by rw [hv1]; exact hv2, hv3⟩
  · simp [ospray_commit, hv1, hv2, hv3]
  · simp [ospray_release, hv1, hv2, hv3]
  · intro g hg
    obtain ⟨u, hu1, hu2, hu3, _⟩ := handle_decode_encode g hg
    simp [ospray_addGeometry, hv1, hv2, hv3, hu1, hu2, hu3]
  · intro b varName g hb hg
    obtain ⟨u, hu1, hu2, hu3, _⟩ := handle_decode_encode g hg
    simp [ospray_setObject, hv1, hv2, hv3, hu1, hu2, hu3, hb]
  · intro b varName g hb hg
    obtain ⟨u, hu1, hu2, hu3, _⟩ := handle_decode_encode g hg
    simp [ospray_setData, hv1, hv2, hv3, hu1, hu2, hu3, hb]
  · intro b c varName value hb hc
    simp [ospray_set1i, hv1, hv2, hv3, hb, hc]
  · intro b c varName value hb hc
    simp [ospray_set1f, hv1, hv2, hv3, hb, hc]
  · intro b c varName value hb hc hl
    simp [ospray_set3fv, hv1, hv2, hv3, hb, hc, hl]
  · intro hdr names
    simp [ospray_frameBufferClear, hv1, hv2, hv3, getStrings_list_of_strings]
  · intro hdr names r hr
    obtain ⟨u, hu1, hu2, hu3, _⟩ := handle_decode_encode r hr
    simp [ospray_renderFrame, hv1, hv2, hv3, hu1, hu2, hu3, getStrings_list_of_strings]
  · intro hdr stack file pixels pixelBytes a c d fileName size format ha hc hd
    simp only [ospray_frameBufferSave, ha, hv1, hv2, hc, hd, hv3]
    cases writePPM stack file size pixelBytes with
    | undefined => exact Or.inl rfl
    | fopenFailed => exact Or.inr (Or.inl rfl)
    | written bytes => exact Or.inr (Or.inr ⟨bytes, rfl⟩)

/-- C10 at the handle 2^64 - 1: the creation wrapper returns -1, commit decodes it back
to 2^64 - 1, and a list of two such integers reaches `ospNewData` as the two handles. -/
theorem handle_round_trip_witness :
    (18446744073709551615 : Nat) < 2 ^ 64 ∧
    Py_BuildValue_l 18446744073709551615 = .int (-1) ∧
    ospray_newRenderer 18446744073709551615 [.str "scivis"] =
      ⟨[.ospNewRenderer "scivis"], .returned (Py_BuildValue_l 18446744073709551615)⟩ ∧
    ospray_commit [Py_BuildValue_l 18446744073709551615] =
      ⟨[.ospCommit 18446744073709551615], .returned .none⟩ ∧
    (∃ values, values.map handleOfLong = [18446744073709551615, 7] ∧
      ospray_newData 18446744073709551615
          [.int 2, .str "light", .list ([18446744073709551615, 7].map Py_BuildValue_l)] =
        ⟨[.ospNewData 2 .OSP_LIGHT (.longs values) 0],
          .returned (Py_BuildValue_l 18446744073709551615)⟩) :=
  ⟨by decide,
   (handle_round_trip 18446744073709551615 (by decide)).1.1,
   (handle_round_trip 18446744073709551615 (by decide)).1.2.2.1 (.str "scivis") "scivis" rfl,
   (handle_round_trip 18446744073709551615 (by decide)).2.2.1,
   (handle_round_trip 18446744073709551615 (by decide)).1.2.2.2.2.2.2.2.2 (.int 2) 2
     [18446744073709551615, 7] rfl (by decide)⟩

/-! ## The item count of new-data -/

/-- A sequence converter returns the vector of the scalar conversions when they all
succeed. -/
theorem converts_all {α : Type} (conv : PyObject → Except RuntimeError α)
    (seq : PyObject → Except RuntimeError (List α))
    (hseq : ∀ o, seq o = match PyObject_GetIter o with
      | Option.none => .error .notAList
      | some items => pushBackLoop conv items [])
    (o : PyObject) (items : List PyObject) (values : List α)
    (hi : PyObject_GetIter o = some items)
    (hm : items.map conv = values.map Except.ok) : seq o = .ok values := by
  rw [hseq, hi]
  exact (pushBackLoop_ok_iff conv items [] values).mpr ⟨values, by simp, hm⟩

/-- C11: new-data never compares the item count with the value list. For every count `n`
that parses (every C int does, zero and negative ones too), every one of the eight
format names and every iterable whose items all convert, to `values`, the call
returns the handle after exactly one `ospNewData` call that gets `n` as it is, the
encoding of the name, the whole of `values` and flags 0, whatever the length of
`values` is. -/
theorem newData_no_count_validation (ret : Nat) (a b valuesList : PyObject) (n : Int)
    (format : String) (items : List PyObject) (ha : arg_i a = some n)
    (hb : arg_s b = some format) (hi : PyObject_GetIter valuesList = some items) :
    (format = "float3a" ∨ format = "OSP_FLOAT3A" →
      ∀ values, items.map getFloat = values.map Except.ok →
        ospray_newData ret [a, b, valuesList] =
          ⟨[.ospNewData n .OSP_FLOAT3A (.floats values) 0], .returned (Py_BuildValue_l ret)⟩) ∧
    (format = "float4" ∨ format = "OSP_FLOAT4" →
      ∀ values, items.map getFloat = values.map Except.ok →
        ospray_newData ret [a, b, valuesList] =
          ⟨[.ospNewData n .OSP_FLOAT4 (.floats values) 0], .returned (Py_BuildValue_l ret)⟩) ∧
    (format = "int3" ∨ format = "OSP_INT3" →
      ∀ values, items.map getInt = values.map Except.ok →
        ospray_newData ret [a, b, valuesList] =
          ⟨[.ospNewData n .OSP_INT3 (.ints values) 0], .returned (Py_BuildValue_l ret)⟩) ∧
    (format = "light" ∨ format = "OSP_LIGHT" →
      ∀ values, items.map getLong = values.map Except.ok →
        ospray_newData ret [a, b, valuesList] =
          ⟨[.ospNewData n .OSP_LIGHT (.longs values) 0], .returned (Py_BuildValue_l ret)⟩) ∧
    (∀ m : Int, INT_MIN ≤ m → m ≤ INT_MAX → arg_i (.int m) = some m) := by
  refine ⟨?_, ?_, ?_, ?_, ?_⟩
  · intro h values hm
    have hv := converts_all getFloat getFloats (fun _ => rfl) valuesList items values hi hm
    simp [ospray_newData, ha, hb, h, hv]
  · intro h values hm
    have hv := converts_all getFloat getFloats (fun _ => rfl) valuesList items values hi hm
    rcases h with h | h <;> subst h <;> simp [ospray_newData, ha, hb, hv]
  · intro h values hm
    have hv := converts_all getInt getInts (fun _ => rfl) valuesList items values hi hm
    rcases h with h | h <;> subst h <;> simp [ospray_newData, ha, hb, hv]
  · intro h values hm
    have hv := converts_all getLong getLongs (fun _ => rfl) valuesList items values hi hm
    rcases h with h | h <;> subst h <;> simp [ospray_newData, ha, hb, hv]
  · intro m h1 h2
    simp only [arg_i, arg_l]
    rw [if_pos ⟨h1, h2⟩]

/-- C11 at concrete calls: 4 items of int3 over 3 ints (fewer than 4 times 3), a negative
count, a zero count and an empty list all reach `ospNewData` unchanged. -/
theorem newData_no_count_validation_witness :
    [CInt.ofLong 1, CInt.ofLong 2, CInt.ofLong 3].length < 4 * componentsPerItem .OSP_INT3 ∧
    ospray_newData 77 [.int 4, .str "int3", .list [.int 1, .int 2, .int 3]] =
      ⟨[.ospNewData 4 .OSP_INT3 (.ints [.ofLong 1, .ofLong 2, .ofLong 3]) 0],
        .returned (Py_BuildValue_l 77)⟩ ∧
    ospray_newData 78 [.int (-2), .str "OSP_FLOAT4", .list [.float (.bits 0)]] =
      ⟨[.ospNewData (-2) .OSP_FLOAT4 (.floats [.ofDouble (.bits 0)]) 0],
        .returned (Py_BuildValue_l 78)⟩ ∧
    ospray_newData 79 [.int 0, .str "light", .tuple [.int 9]] =
      ⟨[.ospNewData 0 .OSP_LIGHT (.longs [9]) 0], .returned (Py_BuildValue_l 79)⟩ ∧
    ospray_newData 80 [.int 5, .str "float3a", .list []] =
      ⟨[.ospNewData 5 .OSP_FLOAT3A (.floats []) 0], .returned (Py_BuildValue_l 80)⟩ :=
  ⟨by decide,
   (newData_no_count_validation 77 (.int 4) (.str "int3") (.list [.int 1, .int 2, .int 3]) 4
      "int3" [.int 1, .int 2, .int 3] rfl rfl rfl).2.2.1 (Or.inl rfl)
      [.ofLong 1, .ofLong 2, .ofLong 3] rfl,
   (newData_no_count_validation 78 (.int (-2)) (.str "OSP_FLOAT4") (.list [.float (.bits 0)])
      (-2) "OSP_FLOAT4" [.float (.bits 0)] rfl rfl rfl).2.1 (Or.inr rfl)
      [.ofDouble (.bits 0)] rfl,
   (newData_no_count_validation 79 (.int 0) (.str "light") (.tuple [.int 9]) 0
      "light" [.int 9] rfl rfl rfl).2.2.2.1 (Or.inl rfl) [9] rfl,
   (newData_no_count_validation 80 (.int 5) (.str "float3a") (.list []) 5
      "float3a" [] rfl rfl rfl).1 (Or.inl rfl) [] rfl⟩

end PyOspray
